import Mathlib

/-!
Verification development for the NASA asteroid-impact repository.

The Python sources are shallowly embedded over `ℝ` (Python floats are
modelled as real numbers): pure formulas become Lean functions, fallible
code returns `Except String`, pandas `NaN` entries become `Option ℝ`, and
the pickled regressor and scalers are abstract function parameters.
-/

open scoped Classical

noncomputable section

namespace NasaImpact

/-- Python `math.radians` / `np.radians`: degrees to radians. -/
def radians (x : ℝ) : ℝ := x * Real.pi / 180

/-- Python `math.atan2 y x` / `np.arctan2 y x`: the standard two-argument
arctangent, defined piecewise from `Real.arctan`. -/
def atan2 (y x : ℝ) : ℝ :=
  if 0 < x then Real.arctan (y / x)
  else if x < 0 then
    (if 0 ≤ y then Real.arctan (y / x) + Real.pi else Real.arctan (y / x) - Real.pi)
  else if 0 < y then Real.pi / 2
  else if y < 0 then -(Real.pi / 2)
  else 0

/-- Python float `x % y`, for `y > 0`: `x - y * floor (x / y)`. -/
def pymod (x y : ℝ) : ℝ := x - y * ⌊x / y⌋

/-- Python `str.lower()`, mapping each character to lower case
(`pandas .str.lower()` does the same per row). -/
def pyLower (s : String) : String := ⟨s.data.map Char.toLower⟩

/-- Python `str.strip()`: remove leading and trailing whitespace
(`pandas .str.strip()` does the same per row). -/
def pyStrip (s : String) : String :=
  ⟨((s.data.dropWhile Char.isWhitespace).reverse.dropWhile Char.isWhitespace).reverse⟩

namespace App

/-- `app.py calculate_energy`: kinetic energy in joules of a spherical
impactor of the given diameter (m), velocity (km/s) and density
(default 3000 kg/m³). -/
def calculate_energy (diameter_m velocity_kms : ℝ) (density : ℝ := 3000) : ℝ :=
  let radius_m := diameter_m / 2.0
  let volume_m3 := (4.0 / 3.0) * Real.pi * radius_m ^ (3 : ℕ)
  let mass_kg := volume_m3 * density
  let velocity_ms := velocity_kms * 1000.0
  0.5 * mass_kg * velocity_ms ^ (2 : ℕ)

/-- `app.py calculate_crater_diameter`: `diameter_m * velocity_kms ** 0.44`
(real power). -/
def calculate_crater_diameter (diameter_m velocity_kms : ℝ) : ℝ :=
  diameter_m * velocity_kms ^ (0.44 : ℝ)

/-- `app.py calculate_blast_radius`: cube root of the energy, divided by
1000, in km. -/
def calculate_blast_radius (energy_joules : ℝ) : ℝ :=
  energy_joules ^ ((1.0 : ℝ) / 3.0) / 1000.0

/-- `app.py calculate_earthquake_magnitude`: `0` for non-positive energy,
else `(2/3) * (log10 energy - 4.8)`. -/
def calculate_earthquake_magnitude (energy_joules : ℝ) : ℝ :=
  if energy_joules ≤ 0 then 0.0
  else (2.0 / 3.0) * (Real.logb 10 energy_joules - 4.8)

/-- `app.py haversine_distance`: great-circle distance in km on a sphere of
radius 6371 km; the deltas are converted to radians after subtracting in
degrees, exactly as in the source. -/
def haversine_distance (lat1 lon1 lat2 lon2 : ℝ) : ℝ :=
  let R : ℝ := 6371
  let phi1 := radians lat1
  let phi2 := radians lat2
  let d_phi := radians (lat2 - lat1)
  let d_lambda := radians (lon2 - lon1)
  let a := Real.sin (d_phi / 2) ^ (2 : ℕ) +
    Real.cos phi1 * Real.cos phi2 * Real.sin (d_lambda / 2) ^ (2 : ℕ)
  let c := 2 * atan2 (Real.sqrt a) (Real.sqrt (1 - a))
  R * c

/-- One entry of the fixed volcano table in `app.py is_volcanic_area`. -/
structure Volcano where
  name : String
  vlat : ℝ
  vlon : ℝ
  radius_km : ℝ

/-- The fixed volcano list of `app.py is_volcanic_area`, in source order. -/
def volcanoes : List Volcano :=
  [⟨"Mount St. Helens", 46.2, -122.18, 50⟩,
   ⟨"Kilauea", 19.4, -155.3, 50⟩,
   ⟨"Mount Rainier", 46.85, -121.75, 50⟩]

/-- The impact-level computation inlined in `app.py is_volcanic_area`. -/
def impact_level (energy_joules : ℝ) : String :=
  if energy_joules > 1e19 then "high"
  else if energy_joules > 1e17 then "medium"
  else "low"

/-- The `for v in volcanoes` loop of `app.py is_volcanic_area`: returns on
the first volcano whose distance is within its radius. -/
def volcanoLoop (lat lon energy_joules : ℝ) :
    List Volcano → Bool × Option String × Option String
  | [] => (false, none, none)
  | v :: rest =>
    if haversine_distance lat lon v.vlat v.vlon ≤ v.radius_km then
      (true, some v.name, some (impact_level energy_joules))
    else volcanoLoop lat lon energy_joules rest

/-- `app.py is_volcanic_area`: `(affected, volcano name, impact level)`. -/
def is_volcanic_area (lat lon energy_joules : ℝ) :
    Bool × Option String × Option String :=
  volcanoLoop lat lon energy_joules volcanoes

end App

namespace HaversineDistance

/-- The coordinate validation of `haversine_distance.py`, in source order:
`-90 <= lat1 <= 90 and -90 <= lat2 <= 90 and -180 <= lon1 <= 180 and
-180 <= lon2 <= 180`. -/
def inRange (lat1 lon1 lat2 lon2 : ℝ) : Prop :=
  (-90 ≤ lat1 ∧ lat1 ≤ 90) ∧ (-90 ≤ lat2 ∧ lat2 ≤ 90) ∧
  (-180 ≤ lon1 ∧ lon1 ≤ 180) ∧ (-180 ≤ lon2 ∧ lon2 ≤ 180)

/-- The arithmetic body of `haversine_distance.py`: all four coordinates are
converted to radians first, then the deltas are taken in radians. -/
def dist (lat1 lon1 lat2 lon2 : ℝ) : ℝ :=
  let R : ℝ := 6371
  let lat1r := radians lat1
  let lon1r := radians lon1
  let lat2r := radians lat2
  let lon2r := radians lon2
  let dlat := lat2r - lat1r
  let dlon := lon2r - lon1r
  let a := Real.sin (dlat / 2) ^ (2 : ℕ) +
    Real.cos lat1r * Real.cos lat2r * Real.sin (dlon / 2) ^ (2 : ℕ)
  let c := 2 * atan2 (Real.sqrt a) (Real.sqrt (1 - a))
  R * c

/-- The message of the `ValueError` raised on invalid coordinates, after the
outer `except` clause wraps it. -/
def invalidMsg : String :=
  "خطأ في حساب المسافة: الإحداثيات غير صالحة: يجب أن تكون خطوط العرض بين -90 و90، وخطوط الطول بين -180 و180"

/-- `haversine_distance.py haversine_distance`: validates the coordinates
(raising `ValueError`, modelled as `Except.error`) and otherwise returns the
great-circle distance. -/
def haversine_distance (lat1 lon1 lat2 lon2 : ℝ) : Except String ℝ :=
  if inRange lat1 lon1 lat2 lon2 then .ok (dist lat1 lon1 lat2 lon2)
  else .error invalidMsg

end HaversineDistance

/-- The five-element feature vector `[diameter_m, velocity, lat, lon,
delta_km]` fed to the scaler and the model. -/
abbrev Feat : Type := ℝ × ℝ × ℝ × ℝ × ℝ

namespace PredictDamageWithModel

/-- `predict_damage_with_model.py predict_damage_with_model`. The pickled
regressor and the two `MinMaxScaler`s are abstract: `model` is
`model.predict`, `scaler_X` is `scaler_X.transform` and `scaler_y` is
`scaler_y.inverse_transform`, each `none` when the corresponding Python
argument is `None`. The `(np.nan, np.nan)` pair returned on any failure is
modelled as `none`. -/
def predict_damage_with_model (diameter_m velocity_kms lat lon delta_km : ℝ)
    (model : Option (Feat → ℝ × ℝ)) (scaler_X : Option (Feat → Feat))
    (scaler_y : Option (ℝ × ℝ → ℝ × ℝ)) : Option (ℝ × ℝ) :=
  if diameter_m < 1.0 ∨ velocity_kms < 0.1 then none
  else
    match model, scaler_X, scaler_y with
    | some m, some sX, some sy =>
      let features := (diameter_m, velocity_kms, lat, lon, delta_km)
      let features_scaled := sX features
      let pred_scaled := m features_scaled
      let pred := sy pred_scaled
      some (pred.1, pred.2)
    | _, _, _ => none

end PredictDamageWithModel

namespace PredictDamageForCity

/-- `predict_damage_for_city.py normalize_lon`:
`((lon + 180) % 360) - 180` with the Python float modulo. -/
def normalize_lon (lon : ℝ) : ℝ := pymod (lon + 180) 360 - 180

/-- The condition under which `predict_damage_for_city.py validate_coords`
does NOT raise. -/
def validate_coords_ok (lat lon : ℝ) : Prop :=
  (-90 ≤ lat ∧ lat ≤ 90) ∧ (-180 ≤ lon ∧ lon ≤ 180)

/-- A row of the `df_asteroids` table; the coordinate columns may hold
`NaN` (`none`), which `dropna` removes. -/
structure AsteroidRow where
  Object : String
  diameter_m : ℝ
  v_relative_kms : ℝ
  asteroid_lat : Option ℝ
  asteroid_lon : Option ℝ
  closest_delta_km : ℝ

/-- A row of the `df_cities` table; `lat`/`lng` may hold `NaN` (`none`). -/
structure CityRow where
  city : String
  lat : Option ℝ
  lng : Option ℝ

/-- An asteroid row surviving `dropna(subset=['asteroid_lat','asteroid_lon'])`,
with both coordinates present. -/
structure CleanAsteroidRow where
  Object : String
  diameter_m : ℝ
  v_relative_kms : ℝ
  asteroid_lat : ℝ
  asteroid_lon : ℝ
  closest_delta_km : ℝ

/-- A city row surviving `dropna(subset=['lat','lng'])`. -/
structure CleanCityRow where
  city : String
  lat : ℝ
  lng : ℝ

/-- `df_asteroids.dropna(subset=['asteroid_lat','asteroid_lon'])`: keeps, in
order, exactly the rows whose two coordinates are present. -/
def dropnaAsteroids (df : List AsteroidRow) : List CleanAsteroidRow :=
  df.filterMap fun r =>
    match r.asteroid_lat, r.asteroid_lon with
    | some la, some lo =>
      some ⟨r.Object, r.diameter_m, r.v_relative_kms, la, lo, r.closest_delta_km⟩
    | _, _ => none

/-- `df_cities.dropna(subset=['lat','lng'])`. -/
def dropnaCities (df : List CityRow) : List CleanCityRow :=
  df.filterMap fun r =>
    match r.lat, r.lng with
    | some la, some lo => some ⟨r.city, la, lo⟩
    | _, _ => none

/-- The dictionary returned by `predict_damage_for_city.py`. -/
structure DamageResult where
  crater_diam_km : ℝ
  blast_radius_km : ℝ
  distance_km : ℝ
  is_city_affected : Bool

/-- Message of the `ValueError` raised when the asteroid is not found. -/
def asteroidMissingMsg (a : String) : String :=
  "الكويكب '" ++ a ++ "' غير موجود في البيانات"

/-- Message of the `ValueError` raised when the city is not found. -/
def cityMissingMsg (c : String) : String :=
  "المدينة '" ++ c ++ "' غير موجودة في البيانات"

/-- Message of the `ValueError` raised by `validate_coords`; the f-string
rendering of the offending floats is abstracted away. -/
def invalidCoordsMsg : String := "الإحداثيات غير صالحة"

/-- The outer `except` clause: every inner exception is re-raised with the
cleaned asteroid and city names prepended. -/
def wrapMsg (a c inner : String) : String :=
  "خطأ في التنبؤ لـ " ++ a ++ ", " ++ c ++ ": " ++ inner

/-- `predict_damage_for_city.py predict_damage_for_city`. Names are cleaned
with strip+lower on both the query and the table column, rows with missing
coordinates are dropped, the first matching row is taken (`.iloc[0]`), the
asteroid and city longitudes are normalized, coordinates are validated, the
five features (with the normalized asteroid longitude) are scaled, predicted
and inverse-scaled, and the haversine distance decides `is_city_affected`.
`model`, `scaler_X`, `scaler_y` abstract `model.predict`,
`scaler_X.transform`, `scaler_y.inverse_transform`. -/
def predict_damage_for_city (asteroid city : String)
    (df_asteroids : List AsteroidRow) (df_cities : List CityRow)
    (model : Feat → ℝ × ℝ) (scaler_X : Feat → Feat)
    (scaler_y : ℝ × ℝ → ℝ × ℝ) : Except String DamageResult :=
  let a := pyLower (pyStrip asteroid)
  let c := pyLower (pyStrip city)
  match (dropnaAsteroids df_asteroids).find?
      (fun r => pyLower (pyStrip r.Object) == a) with
  | none => .error (wrapMsg a c (asteroidMissingMsg a))
  | some asteroid_row =>
    match (dropnaCities df_cities).find?
        (fun r => pyLower (pyStrip r.city) == c) with
    | none => .error (wrapMsg a c (cityMissingMsg c))
    | some city_row =>
      let alon := normalize_lon asteroid_row.asteroid_lon
      let clng := normalize_lon city_row.lng
      if validate_coords_ok asteroid_row.asteroid_lat alon then
        if validate_coords_ok city_row.lat clng then
          let features := (asteroid_row.diameter_m, asteroid_row.v_relative_kms,
            asteroid_row.asteroid_lat, alon, asteroid_row.closest_delta_km)
          let pred := scaler_y (model (scaler_X features))
          match HaversineDistance.haversine_distance
              asteroid_row.asteroid_lat alon city_row.lat clng with
          | .error e => .error (wrapMsg a c e)
          | .ok distance =>
            .ok { crater_diam_km := pred.1
                  blast_radius_km := pred.2
                  distance_km := distance
                  is_city_affected := decide (distance < pred.2) }
        else .error (wrapMsg a c invalidCoordsMsg)
      else .error (wrapMsg a c invalidCoordsMsg)

end PredictDamageForCity

/-! ### Helper lemmas -/

/-- Degree-to-radian conversion is linear in differences. -/
theorem radians_sub (x y : ℝ) : radians (x - y) = radians x - radians y := by
  unfold radians; ring

/-- The Python float modulo by 360 lands in `[0, 360)`. -/
theorem pymod_360_bounds (x : ℝ) : 0 ≤ pymod x 360 ∧ pymod x 360 < 360 := by
  unfold pymod
  constructor
  · have h := Int.floor_le (x / 360)
    nlinarith
  · have h := Int.lt_floor_add_one (x / 360)
    nlinarith

/-- `normalize_lon` lands in `[-180, 180)`. -/
theorem normalize_lon_bounds (lon : ℝ) :
    -180 ≤ PredictDamageForCity.normalize_lon lon ∧
    PredictDamageForCity.normalize_lon lon < 180 := by
  unfold PredictDamageForCity.normalize_lon
  have h := pymod_360_bounds (lon + 180)
  constructor <;> linarith [h.1, h.2]

/-- `normalize_lon` shifts its input by an integer multiple of 360. -/
theorem normalize_lon_sub (lon : ℝ) :
    PredictDamageForCity.normalize_lon lon = lon - 360 * ⌊(lon + 180) / 360⌋ := by
  unfold PredictDamageForCity.normalize_lon pymod
  ring

/-- Values already in `[-180, 180)` are fixed by `normalize_lon`. -/
theorem normalize_lon_eq_self (lon : ℝ) (h1 : -180 ≤ lon) (h2 : lon < 180) :
    PredictDamageForCity.normalize_lon lon = lon := by
  unfold PredictDamageForCity.normalize_lon pymod
  have hf : ⌊(lon + 180) / 360⌋ = 0 := by
    rw [Int.floor_eq_zero_iff, Set.mem_Ico]
    refine ⟨div_nonneg (by linarith) (by norm_num), ?_⟩
    rw [div_lt_one (by norm_num)]
    linarith
  rw [hf]
  push_cast
  ring

/-- `normalize_lon 0 = 0`. -/
theorem normalize_lon_zero : PredictDamageForCity.normalize_lon 0 = 0 :=
  normalize_lon_eq_self 0 (by norm_num) (by norm_num)

/-- The validated haversine body vanishes on coinciding points at the
origin. -/
theorem dist_zero : HaversineDistance.dist 0 0 0 0 = 0 := by
  unfold HaversineDistance.dist radians atan2
  norm_num

/-- `(1, 8)` and `(4, 1)` give the same kinetic energy. -/
theorem energy_1_8_eq_4_1 :
    App.calculate_energy 1 8 = App.calculate_energy 4 1 := by
  unfold App.calculate_energy
  norm_num
  ring

/-- But `(1, 8)` gives a strictly smaller crater diameter than `(4, 1)`. -/
theorem crater_1_8_lt_4_1 :
    App.calculate_crater_diameter 1 8 < App.calculate_crater_diameter 4 1 := by
  unfold App.calculate_crater_diameter
  rw [Real.one_rpow]
  have h1 : (8 : ℝ) ^ (0.44 : ℝ) < (8 : ℝ) ^ ((2 : ℝ) / 3) :=
    Real.rpow_lt_rpow_of_exponent_lt (by norm_num) (by norm_num)
  have h2 : (8 : ℝ) ^ ((2 : ℝ) / 3) = 4 := by
    rw [show (8 : ℝ) = 2 ^ (3 : ℕ) by norm_num, ← Real.rpow_natCast 2 3,
        ← Real.rpow_mul (by norm_num : (0 : ℝ) ≤ 2)]
    norm_num
  nlinarith [h1, h2]

/-- In-range coordinates make the validated haversine return the distance. -/
theorem haversine_ok (lat1 lon1 lat2 lon2 : ℝ)
    (h : HaversineDistance.inRange lat1 lon1 lat2 lon2) :
    HaversineDistance.haversine_distance lat1 lon1 lat2 lon2 =
      .ok (HaversineDistance.dist lat1 lon1 lat2 lon2) := by
  unfold HaversineDistance.haversine_distance
  rw [if_pos h]

/-- An in-range latitude paired with a normalized longitude passes
`validate_coords`. -/
theorem validate_normalized (lat lon : ℝ) (h : -90 ≤ lat ∧ lat ≤ 90) :
    PredictDamageForCity.validate_coords_ok lat
      (PredictDamageForCity.normalize_lon lon) :=
  ⟨h, (normalize_lon_bounds lon).1, le_of_lt (normalize_lon_bounds lon).2⟩

/-! ### Claim theorems -/

/-- C1: `calculate_energy` returns `0.5 * mass * velocity²` with
`mass = density * (4/3) * π * (diameter/2)³` and the velocity converted from
km/s to m/s, the density defaulting to 3000. -/
theorem calculate_energy_correct (d v ρ : ℝ) :
    App.calculate_energy d v ρ =
      0.5 * (ρ * ((4 / 3) * Real.pi * (d / 2) ^ (3 : ℕ))) * (v * 1000) ^ (2 : ℕ)
    ∧ App.calculate_energy d v = App.calculate_energy d v 3000 := by
  refine ⟨?_, rfl⟩
  unfold App.calculate_energy
  ring

/-- C2 counterexample: the inputs `(1, 8)` and `(4, 1)` have equal kinetic
energies but different crater diameters, so `calculate_crater_diameter` is
not a function of the energy alone. -/
theorem crater_not_energy_function_cex :
    App.calculate_energy 1 8 = App.calculate_energy 4 1 ∧
    App.calculate_crater_diameter 1 8 ≠ App.calculate_crater_diameter 4 1 :=
  ⟨energy_1_8_eq_4_1, ne_of_lt crater_1_8_lt_4_1⟩

/-- C2 (amended): `calculate_blast_radius` and
`calculate_earthquake_magnitude` take the energy itself as input, so equal
energies give equal outputs; the crater diameter is computed from diameter
and velocity directly and is excluded. -/
theorem blast_magnitude_energy_function (d1 v1 d2 v2 : ℝ)
    (h : App.calculate_energy d1 v1 = App.calculate_energy d2 v2) :
    App.calculate_blast_radius (App.calculate_energy d1 v1) =
      App.calculate_blast_radius (App.calculate_energy d2 v2) ∧
    App.calculate_earthquake_magnitude (App.calculate_energy d1 v1) =
      App.calculate_earthquake_magnitude (App.calculate_energy d2 v2) :=
  ⟨congrArg _ h, congrArg _ h⟩

/-- C2 witness: the amended claim applied at the concrete energy-equal pair
`(1, 8)` and `(4, 1)`. -/
theorem blast_magnitude_energy_function_witness :
    App.calculate_blast_radius (App.calculate_energy 1 8) =
      App.calculate_blast_radius (App.calculate_energy 4 1) ∧
    App.calculate_earthquake_magnitude (App.calculate_energy 1 8) =
      App.calculate_earthquake_magnitude (App.calculate_energy 4 1) :=
  blast_magnitude_energy_function 1 8 4 1 energy_1_8_eq_4_1

/-- C8: `normalize_lon` lands in `[-180, 180)`, shifts by an integer
multiple of 360, is idempotent, and its output passes `validate_coords`
whenever the latitude is in range. -/
theorem normalize_lon_spec (lon lat : ℝ) (hlat : -90 ≤ lat ∧ lat ≤ 90) :
    (-180 ≤ PredictDamageForCity.normalize_lon lon ∧
      PredictDamageForCity.normalize_lon lon < 180)
    ∧ (∃ k : ℤ, PredictDamageForCity.normalize_lon lon = lon - 360 * k)
    ∧ PredictDamageForCity.normalize_lon (PredictDamageForCity.normalize_lon lon) =
        PredictDamageForCity.normalize_lon lon
    ∧ PredictDamageForCity.validate_coords_ok lat
        (PredictDamageForCity.normalize_lon lon) := by
  obtain ⟨hlo, hhi⟩ := normalize_lon_bounds lon
  refine ⟨⟨hlo, hhi⟩, ⟨⌊(lon + 180) / 360⌋, normalize_lon_sub lon⟩,
    normalize_lon_eq_self _ hlo hhi, ⟨hlat, hlo, le_of_lt hhi⟩⟩

/-- C8 witness: the specification of `normalize_lon` applied at
`lon = 190`, `lat = 0`. -/
theorem normalize_lon_spec_witness :
    (-180 ≤ PredictDamageForCity.normalize_lon 190 ∧
      PredictDamageForCity.normalize_lon 190 < 180)
    ∧ (∃ k : ℤ, PredictDamageForCity.normalize_lon 190 = 190 - 360 * k)
    ∧ PredictDamageForCity.normalize_lon (PredictDamageForCity.normalize_lon 190) =
        PredictDamageForCity.normalize_lon 190
    ∧ PredictDamageForCity.validate_coords_ok 0
        (PredictDamageForCity.normalize_lon 190) :=
  normalize_lon_spec 190 0 (by norm_num)

/-- C3: on in-range coordinates the validated implementation returns
`Except.ok` of the value computed by the `app.py` implementation, and that
value is `R * c` with `R = 6371`,
`c = 2 * atan2 (sqrt a) (sqrt (1 - a))` and
`a = sin²(dlat/2) + cos lat1 * cos lat2 * sin²(dlon/2)`, all angles in
radians. -/
theorem haversine_agree (lat1 lon1 lat2 lon2 : ℝ)
    (h1 : -90 ≤ lat1 ∧ lat1 ≤ 90) (h2 : -90 ≤ lat2 ∧ lat2 ≤ 90)
    (h3 : -180 ≤ lon1 ∧ lon1 ≤ 180) (h4 : -180 ≤ lon2 ∧ lon2 ≤ 180) :
    App.haversine_distance lat1 lon1 lat2 lon2 =
      6371 * (2 * atan2
        (Real.sqrt (Real.sin ((radians lat2 - radians lat1) / 2) ^ (2 : ℕ) +
          Real.cos (radians lat1) * Real.cos (radians lat2) *
            Real.sin ((radians lon2 - radians lon1) / 2) ^ (2 : ℕ)))
        (Real.sqrt (1 - (Real.sin ((radians lat2 - radians lat1) / 2) ^ (2 : ℕ) +
          Real.cos (radians lat1) * Real.cos (radians lat2) *
            Real.sin ((radians lon2 - radians lon1) / 2) ^ (2 : ℕ)))))
    ∧ HaversineDistance.haversine_distance lat1 lon1 lat2 lon2 =
        .ok (App.haversine_distance lat1 lon1 lat2 lon2) := by
  have happ : App.haversine_distance lat1 lon1 lat2 lon2 =
      HaversineDistance.dist lat1 lon1 lat2 lon2 := by
    simp only [App.haversine_distance, HaversineDistance.dist]
    rw [radians_sub lat2 lat1, radians_sub lon2 lon1]
  refine ⟨?_, ?_⟩
  · rw [happ]; rfl
  · rw [happ]
    unfold HaversineDistance.haversine_distance
    rw [if_pos (show HaversineDistance.inRange lat1 lon1 lat2 lon2 by
      unfold HaversineDistance.inRange; exact ⟨h1, h2, h3, h4⟩)]

/-- C3 witness: the two implementations agree at the concrete in-range
input `(10, 20, 30, 40)`. -/
theorem haversine_agree_witness :
    HaversineDistance.haversine_distance 10 20 30 40 =
      .ok (App.haversine_distance 10 20 30 40) :=
  (haversine_agree 10 20 30 40 (by norm_num) (by norm_num) (by norm_num)
    (by norm_num)).2

/-- C7: the validated haversine raises `ValueError` exactly when a latitude
leaves `[-90, 90]` or a longitude leaves `[-180, 180]`, and otherwise
returns the distance. -/
theorem haversine_validation (lat1 lon1 lat2 lon2 : ℝ) :
    (HaversineDistance.haversine_distance lat1 lon1 lat2 lon2 =
        .error HaversineDistance.invalidMsg
      ↔ ¬ ((-90 ≤ lat1 ∧ lat1 ≤ 90) ∧ (-90 ≤ lat2 ∧ lat2 ≤ 90) ∧
            (-180 ≤ lon1 ∧ lon1 ≤ 180) ∧ (-180 ≤ lon2 ∧ lon2 ≤ 180)))
    ∧ (((-90 ≤ lat1 ∧ lat1 ≤ 90) ∧ (-90 ≤ lat2 ∧ lat2 ≤ 90) ∧
          (-180 ≤ lon1 ∧ lon1 ≤ 180) ∧ (-180 ≤ lon2 ∧ lon2 ≤ 180)) →
        HaversineDistance.haversine_distance lat1 lon1 lat2 lon2 =
          .ok (HaversineDistance.dist lat1 lon1 lat2 lon2)) := by
  unfold HaversineDistance.haversine_distance HaversineDistance.inRange
  split_ifs with h
  · exact ⟨by simp [h], fun _ => rfl⟩
  · exact ⟨by simp [h], fun hc => absurd hc h⟩

/-- C7 witness: an out-of-range latitude yields the error, and the origin
pair yields the distance. -/
theorem haversine_validation_witness :
    HaversineDistance.haversine_distance 100 0 0 0 =
      .error HaversineDistance.invalidMsg
    ∧ HaversineDistance.haversine_distance 0 0 0 0 =
        .ok (HaversineDistance.dist 0 0 0 0) :=
  ⟨(haversine_validation 100 0 0 0).1.mpr (by norm_num),
   (haversine_validation 0 0 0 0).2 (by norm_num)⟩

/-- C9: `is_volcanic_area` reports an affected result exactly when some
volcano of the fixed list is within its 50 km radius; the volcano reported
is the first match in list order and the impact level follows the
`1e19`/`1e17` energy thresholds. -/
theorem is_volcanic_area_spec (lat lon e : ℝ) :
    ((App.is_volcanic_area lat lon e).1 = true ↔
      ∃ v ∈ App.volcanoes,
        App.haversine_distance lat lon v.vlat v.vlon ≤ v.radius_km)
    ∧ App.is_volcanic_area lat lon e =
        (if App.haversine_distance lat lon 46.2 (-122.18) ≤ 50 then
          (true, some "Mount St. Helens", some (App.impact_level e))
         else if App.haversine_distance lat lon 19.4 (-155.3) ≤ 50 then
          (true, some "Kilauea", some (App.impact_level e))
         else if App.haversine_distance lat lon 46.85 (-121.75) ≤ 50 then
          (true, some "Mount Rainier", some (App.impact_level e))
         else (false, none, none))
    ∧ App.impact_level e =
        (if e > 1e19 then "high" else if e > 1e17 then "medium" else "low") := by
  have hchain : App.is_volcanic_area lat lon e =
      (if App.haversine_distance lat lon 46.2 (-122.18) ≤ 50 then
        (true, some "Mount St. Helens", some (App.impact_level e))
       else if App.haversine_distance lat lon 19.4 (-155.3) ≤ 50 then
        (true, some "Kilauea", some (App.impact_level e))
       else if App.haversine_distance lat lon 46.85 (-121.75) ≤ 50 then
        (true, some "Mount Rainier", some (App.impact_level e))
       else (false, none, none)) := by
    simp only [App.is_volcanic_area, App.volcanoes, App.volcanoLoop]
  refine ⟨?_, hchain, rfl⟩
  rw [hchain]
  split_ifs with hA hB hC
  · refine ⟨fun _ => ⟨⟨"Mount St. Helens", 46.2, -122.18, 50⟩, ?_, hA⟩,
      fun _ => rfl⟩
    simp [App.volcanoes]
  · refine ⟨fun _ => ⟨⟨"Kilauea", 19.4, -155.3, 50⟩, ?_, hB⟩, fun _ => rfl⟩
    simp [App.volcanoes]
  · refine ⟨fun _ => ⟨⟨"Mount Rainier", 46.85, -121.75, 50⟩, ?_, hC⟩,
      fun _ => rfl⟩
    simp [App.volcanoes]
  · constructor
    · intro h
      simp at h
    · rintro ⟨v, hv, hle⟩
      simp only [App.volcanoes, List.mem_cons, List.not_mem_nil, or_false] at hv
      rcases hv with rfl | rfl | rfl
      · exact absurd hle hA
      · exact absurd hle hB
      · exact absurd hle hC

/-- C5: for valid inputs and supplied model and scalers,
`predict_damage_with_model` scales the five features, predicts, inverse
scales, and returns the resulting pair. -/
theorem predict_with_model_valid (d v lat lon delta : ℝ)
    (m : Feat → ℝ × ℝ) (sX : Feat → Feat) (sy : ℝ × ℝ → ℝ × ℝ)
    (hd : 1.0 ≤ d) (hv : 0.1 ≤ v) :
    PredictDamageWithModel.predict_damage_with_model d v lat lon delta
      (some m) (some sX) (some sy) = some (sy (m (sX (d, v, lat, lon, delta)))) := by
  unfold PredictDamageWithModel.predict_damage_with_model
  rw [if_neg (by push_neg; exact ⟨by linarith, by linarith⟩)]

/-- C5 witness: valid input `(10, 5)` with identity scalers and a constant
model evaluates to that model output. -/
theorem predict_with_model_valid_witness :
    PredictDamageWithModel.predict_damage_with_model 10 5 0 0 1000
      (some fun _ => ((1 : ℝ), (2 : ℝ))) (some id) (some id) = some (1, 2) :=
  predict_with_model_valid 10 5 0 0 1000 (fun _ => (1, 2)) id id
    (by norm_num) (by norm_num)

/-- C10: on any invalid input — too-small diameter or velocity, or a missing
model or scaler — `predict_damage_with_model` returns the `(NaN, NaN)`
marker (`none`) rather than propagating an error. -/
theorem predict_with_model_invalid (d v lat lon delta : ℝ)
    (model : Option (Feat → ℝ × ℝ)) (sX : Option (Feat → Feat))
    (sy : Option (ℝ × ℝ → ℝ × ℝ))
    (h : d < 1.0 ∨ v < 0.1 ∨ model = none ∨ sX = none ∨ sy = none) :
    PredictDamageWithModel.predict_damage_with_model d v lat lon delta
      model sX sy = none := by
  unfold PredictDamageWithModel.predict_damage_with_model
  by_cases hdv : d < 1.0 ∨ v < 0.1
  · rw [if_pos hdv]
  · rw [if_neg hdv]
    push_neg at hdv
    rcases model with _ | m
    · rfl
    rcases sX with _ | sX
    · rfl
    rcases sy with _ | sy
    · rfl
    rcases h with h | h | h | h | h
    · exact absurd h (not_lt.mpr hdv.1)
    · exact absurd h (not_lt.mpr hdv.2)
    all_goals simp at h

/-- C10 witness: a sub-metre diameter with no model or scalers returns the
`(NaN, NaN)` marker. -/
theorem predict_with_model_invalid_witness :
    PredictDamageWithModel.predict_damage_with_model 0.5 5 0 0 1000
      none none none = none :=
  predict_with_model_invalid 0.5 5 0 0 1000 none none none
    (Or.inl (by norm_num))

/-- C4: when both lookups succeed and the validated coordinates are in
range, `predict_damage_for_city` returns the two inverse-scaled model
outputs as `crater_diam_km` and `blast_radius_km`, the haversine distance
between the (longitude-normalized) asteroid and city coordinates as
`distance_km`, and `is_city_affected` decides `distance < blast radius`
strictly. -/
theorem predict_city_affected_spec (asteroid city : String)
    (dfA : List PredictDamageForCity.AsteroidRow)
    (dfC : List PredictDamageForCity.CityRow)
    (model : Feat → ℝ × ℝ) (sX : Feat → Feat) (sy : ℝ × ℝ → ℝ × ℝ)
    (rA : PredictDamageForCity.CleanAsteroidRow)
    (rC : PredictDamageForCity.CleanCityRow)
    (hA : (PredictDamageForCity.dropnaAsteroids dfA).find?
        (fun r => pyLower (pyStrip r.Object) == pyLower (pyStrip asteroid)) =
        some rA)
    (hC : (PredictDamageForCity.dropnaCities dfC).find?
        (fun r => pyLower (pyStrip r.city) == pyLower (pyStrip city)) = some rC)
    (hva : -90 ≤ rA.asteroid_lat ∧ rA.asteroid_lat ≤ 90)
    (hvc : -90 ≤ rC.lat ∧ rC.lat ≤ 90) :
    PredictDamageForCity.predict_damage_for_city asteroid city dfA dfC
        model sX sy =
      .ok { crater_diam_km := (sy (model (sX (rA.diameter_m, rA.v_relative_kms,
              rA.asteroid_lat, PredictDamageForCity.normalize_lon rA.asteroid_lon,
              rA.closest_delta_km)))).1
            blast_radius_km := (sy (model (sX (rA.diameter_m, rA.v_relative_kms,
              rA.asteroid_lat, PredictDamageForCity.normalize_lon rA.asteroid_lon,
              rA.closest_delta_km)))).2
            distance_km := HaversineDistance.dist rA.asteroid_lat
              (PredictDamageForCity.normalize_lon rA.asteroid_lon) rC.lat
              (PredictDamageForCity.normalize_lon rC.lng)
            is_city_affected := decide (HaversineDistance.dist rA.asteroid_lat
              (PredictDamageForCity.normalize_lon rA.asteroid_lon) rC.lat
              (PredictDamageForCity.normalize_lon rC.lng) <
              (sy (model (sX (rA.diameter_m, rA.v_relative_kms,
                rA.asteroid_lat,
                PredictDamageForCity.normalize_lon rA.asteroid_lon,
                rA.closest_delta_km)))).2) }
    ∧ (decide (HaversineDistance.dist rA.asteroid_lat
          (PredictDamageForCity.normalize_lon rA.asteroid_lon) rC.lat
          (PredictDamageForCity.normalize_lon rC.lng) <
          (sy (model (sX (rA.diameter_m, rA.v_relative_kms, rA.asteroid_lat,
            PredictDamageForCity.normalize_lon rA.asteroid_lon,
            rA.closest_delta_km)))).2) = true ↔
        HaversineDistance.dist rA.asteroid_lat
          (PredictDamageForCity.normalize_lon rA.asteroid_lon) rC.lat
          (PredictDamageForCity.normalize_lon rC.lng) <
          (sy (model (sX (rA.diameter_m, rA.v_relative_kms, rA.asteroid_lat,
            PredictDamageForCity.normalize_lon rA.asteroid_lon,
            rA.closest_delta_km)))).2) := by
  refine ⟨?_, decide_eq_true_iff⟩
  have hr : HaversineDistance.inRange rA.asteroid_lat
      (PredictDamageForCity.normalize_lon rA.asteroid_lon) rC.lat
      (PredictDamageForCity.normalize_lon rC.lng) := by
    unfold HaversineDistance.inRange
    exact ⟨hva, hvc,
      ⟨(normalize_lon_bounds _).1, le_of_lt (normalize_lon_bounds _).2⟩,
      ⟨(normalize_lon_bounds _).1, le_of_lt (normalize_lon_bounds _).2⟩⟩
  simp only [PredictDamageForCity.predict_damage_for_city, hA, hC]
  rw [if_pos (validate_normalized rA.asteroid_lat rA.asteroid_lon hva),
    if_pos (validate_normalized rC.lat rC.lng hvc),
    haversine_ok _ _ _ _ hr]

/-- C4 witness: a one-row asteroid table and one-row city table at the
origin, identity scalers and a constant model output `(1, 2)`: the distance
is `0`, strictly below the blast radius `2`, so the city is affected. -/
theorem predict_city_affected_spec_witness :
    PredictDamageForCity.predict_damage_for_city "apophis" "cairo"
      [⟨"Apophis", 100, 10, some 0, some 0, 500⟩] [⟨"Cairo", some 0, some 0⟩]
      (fun _ => (1, 2)) id id =
      .ok ⟨1, 2, 0, true⟩ := by
  have h := (predict_city_affected_spec "apophis" "cairo"
    [⟨"Apophis", 100, 10, some 0, some 0, 500⟩] [⟨"Cairo", some 0, some 0⟩]
    (fun _ => (1, 2)) id id ⟨"Apophis", 100, 10, 0, 0, 500⟩ ⟨"Cairo", 0, 0⟩
    rfl rfl (by norm_num) (by norm_num)).1
  rw [h]
  simp only [normalize_lon_zero, dist_zero, id_eq]
  norm_num

/-- C6: the lookups compare names stripped and lowercased on both sides;
when no asteroid row (after dropping rows with missing coordinates) matches,
the function fails with the error naming the asteroid, and when the asteroid
matches but no city row does, it fails with the error naming the city. -/
theorem lookup_missing_spec (asteroid city : String)
    (dfA : List PredictDamageForCity.AsteroidRow)
    (dfC : List PredictDamageForCity.CityRow)
    (model : Feat → ℝ × ℝ) (sX : Feat → Feat) (sy : ℝ × ℝ → ℝ × ℝ) :
    ((∀ r ∈ PredictDamageForCity.dropnaAsteroids dfA,
        ¬ pyLower (pyStrip r.Object) = pyLower (pyStrip asteroid)) →
      PredictDamageForCity.predict_damage_for_city asteroid city dfA dfC
          model sX sy =
        .error (PredictDamageForCity.wrapMsg (pyLower (pyStrip asteroid))
          (pyLower (pyStrip city))
          (PredictDamageForCity.asteroidMissingMsg (pyLower (pyStrip asteroid)))))
    ∧ ((∃ r ∈ PredictDamageForCity.dropnaAsteroids dfA,
          pyLower (pyStrip r.Object) = pyLower (pyStrip asteroid)) →
        (∀ r ∈ PredictDamageForCity.dropnaCities dfC,
          ¬ pyLower (pyStrip r.city) = pyLower (pyStrip city)) →
        PredictDamageForCity.predict_damage_for_city asteroid city dfA dfC
            model sX sy =
          .error (PredictDamageForCity.wrapMsg (pyLower (pyStrip asteroid))
            (pyLower (pyStrip city))
            (PredictDamageForCity.cityMissingMsg (pyLower (pyStrip city))))) := by
  constructor
  · intro h
    have hf : (PredictDamageForCity.dropnaAsteroids dfA).find?
        (fun r => pyLower (pyStrip r.Object) == pyLower (pyStrip asteroid)) =
        none :=
      List.find?_eq_none.mpr fun x hx => by simpa using h x hx
    simp only [PredictDamageForCity.predict_damage_for_city, hf]
  · intro hex hc
    obtain ⟨r, hr, hre⟩ := hex
    have hne : (PredictDamageForCity.dropnaAsteroids dfA).find?
        (fun r => pyLower (pyStrip r.Object) == pyLower (pyStrip asteroid)) ≠
        none := by
      intro hnone
      exact (List.find?_eq_none.mp hnone r hr) (by simpa using hre)
    obtain ⟨rA, hA⟩ := Option.ne_none_iff_exists'.mp hne
    have hfc : (PredictDamageForCity.dropnaCities dfC).find?
        (fun r => pyLower (pyStrip r.city) == pyLower (pyStrip city)) = none :=
      List.find?_eq_none.mpr fun x hx => by simpa using hc x hx
    simp only [PredictDamageForCity.predict_damage_for_city, hA, hfc]

/-- C6 witness: on empty tables the lookup fails with the error naming the
missing asteroid. -/
theorem lookup_missing_spec_witness :
    PredictDamageForCity.predict_damage_for_city "Bennu" "Cairo" [] []
      (fun _ => (0, 0)) id id =
      .error (PredictDamageForCity.wrapMsg (pyLower (pyStrip "Bennu"))
        (pyLower (pyStrip "Cairo"))
        (PredictDamageForCity.asteroidMissingMsg (pyLower (pyStrip "Bennu")))) :=
  (lookup_missing_spec "Bennu" "Cairo" [] [] (fun _ => (0, 0)) id id).1
    (by simp [PredictDamageForCity.dropnaAsteroids])

end NasaImpact

end
